import Mathlib

/-! Engage demo front-end: chat assistant (`task1.js`) and rating predictor (`task2.js`)

A shallow embedding of the two browser scripts under `backend/static/`.

* JavaScript strings are Lean `String`s (sequences of Unicode scalar values),
  `null`/`undefined` is `none`.
* JavaScript numbers are modelled by `JSNumber`, an exact representation of
  IEEE-754 binary64 values; `Number(string)` is `toNumber`.
* The DOM elements the handlers read and write are fields of explicit state
  records (`ChatState`, `RatingState`).
* An `async` handler is split at its single `await fetch(...)`: the part that
  runs synchronously on the submit event, and the continuation that runs when
  the fetch settles.
-/

namespace Engage

/-! ## JavaScript primitives -/

/-- The code points removed by `String.prototype.trim` and skipped by `Number(string)`:
ECMAScript `WhiteSpace` (TAB, VT, FF, ZWNBSP and category Zs) and `LineTerminator`. -/
def isStrWhiteSpaceChar (c : Char) : Bool :=
  let n := c.toNat
  n == 0x09 || n == 0x0A || n == 0x0B || n == 0x0C || n == 0x0D || n == 0x20 ||
  n == 0xA0 || n == 0x1680 || (0x2000 ≤ n && n ≤ 0x200A) || n == 0x2028 ||
  n == 0x2029 || n == 0x202F || n == 0x205F || n == 0x3000 || n == 0xFEFF

/-- Strip leading and trailing white space from a list of characters. -/
def trimChars (cs : List Char) : List Char :=
  ((cs.dropWhile isStrWhiteSpaceChar).reverse.dropWhile isStrWhiteSpaceChar).reverse

/-- The method `String.prototype.trim`. -/
def jsTrim (s : String) : String := String.mk (trimChars s.data)

/-- JavaScript truthiness of a string: every string but the empty one. -/
def strTruthy (s : String) : Bool := !(s.data.isEmpty)

/-- A JavaScript Number. `fin neg m e` is the finite value `(-1)^neg * m * 2^e`;
the values built by this development keep `m` odd, or `m = 0` and `e = 0`. -/
inductive JSNumber where
  | nan
  | inf (neg : Bool)
  | fin (neg : Bool) (m : Nat) (e : Int)
  deriving DecidableEq, Repr

namespace JSNumber

/-- The number `+0`. -/
def zero : JSNumber := fin false 0 0

/-- JavaScript truthiness of a number: every number but `NaN`, `+0` and `-0`. -/
def truthy : JSNumber → Bool
  | nan => false
  | inf _ => true
  | fin _ m _ => m != 0

/-- Whether a number is an integer greater than or equal to zero (`-0` counts as zero). -/
def isNonNegInteger : JSNumber → Bool
  | nan => false
  | inf _ => false
  | fin neg m e => m == 0 || (!neg && (0 ≤ e || m % 2 ^ (-e).toNat == 0))

/-- Floor of the base-two logarithm of a positive natural number. -/
def log2Fuel : Nat → Nat → Nat
  | 0, _ => 0
  | fuel + 1, n => if n < 2 then 0 else log2Fuel fuel (n / 2) + 1

/-- The least `k` from `k` on, at most `k + fuel`, with `q ≤ p * 2 ^ k`. -/
def shiftUntil (p q : Nat) : Nat → Nat → Nat
  | 0, k => k
  | fuel + 1, k => if q ≤ p * 2 ^ k then k else shiftUntil p q fuel (k + 1)

/-- The exponent of the binade of `p / q` (for `0 < p`, `0 < q`), not below `-1022`,
the exponent of the subnormal numbers. -/
def binadeExp (p q : Nat) : Int :=
  if q ≤ p then (log2Fuel (p / q) (p / q) : Nat) else -((shiftUntil p q 1021 1 : Nat) : Int)

/-- Nearest integer to `num / den`, ties to even. -/
def roundHalfEven (num den : Nat) : Nat :=
  let d := num / den
  let r := num % den
  if 2 * r < den then d
  else if den < 2 * r then d + 1
  else if d % 2 == 0 then d else d + 1

/-- Remove the factors of two of the significand. -/
def normalize : Nat → Nat → Int → Nat × Int
  | 0, m, e => (m, e)
  | fuel + 1, m, e =>
    if m == 0 then (0, 0)
    else if m % 2 == 0 then normalize fuel (m / 2) (e + 1) else (m, e)

/-- The Number value of the rational `(-1)^neg * p / q` with `0 < q`: IEEE-754 binary64
round to nearest, ties to even, overflowing to infinity. Every literal is rounded from
its exact value, as the engines do; the standard leaves the digits after the 20th
significant one to the implementation. -/
def roundRatio (neg : Bool) (p q : Nat) : JSNumber :=
  if p == 0 then fin neg 0 0
  else
    let e := binadeExp p q
    let s : Int := 52 - e
    let n := if 0 ≤ s then roundHalfEven (p * 2 ^ s.toNat) q
             else roundHalfEven p (q * 2 ^ (-s).toNat)
    if 0 ≤ -s && 2 ^ 1024 ≤ n * 2 ^ (-s).toNat then inf neg
    else
      let me := normalize 64 n (-s)
      fin neg me.1 me.2

/-- The Number value of the decimal `(-1)^neg * digits * 10 ^ exp10`. -/
def ofDecimal (neg : Bool) (digits : Nat) (exp10 : Int) : JSNumber :=
  if 0 ≤ exp10 then roundRatio neg (digits * 10 ^ exp10.toNat) 1
  else roundRatio neg digits (10 ^ (-exp10).toNat)

/-- The Number value of a natural number. -/
def ofNat (n : Nat) : JSNumber := roundRatio false n 1

/-- The Number value of an integer. -/
def ofInt (i : Int) : JSNumber := roundRatio (decide (i < 0)) i.natAbs 1

/-- Strict equality `===` of two numbers: `NaN` equals nothing, `+0` equals `-0`. -/
def strictEq : JSNumber → JSNumber → Bool
  | nan, _ => false
  | _, nan => false
  | inf n1, inf n2 => n1 == n2
  | inf _, fin _ _ _ => false
  | fin _ _ _, inf _ => false
  | fin n1 m1 e1, fin n2 m2 e2 =>
    (m1 == 0 && m2 == 0) || (n1 == n2 && m1 == m2 && e1 == e2)

end JSNumber

/-! ### `Number(string)`: the grammar `StringNumericLiteral` -/

/-- Value of a digit of the given radix, `none` for any other character. -/
def digitValue (radix : Nat) (c : Char) : Option Nat :=
  let n := c.toNat
  let v :=
    if 48 ≤ n && n ≤ 57 then some (n - 48)
    else if 97 ≤ n && n ≤ 102 then some (n - 87)
    else if 65 ≤ n && n ≤ 70 then some (n - 55)
    else none
  match v with
  | some d => if d < radix then some d else none
  | none => none

/-- Read the longest prefix of digits: the value read so far, the number of digits
read, and the rest of the input. -/
def readDigits (radix : Nat) : List Char → Nat → Nat → Nat × Nat × List Char
  | [], acc, cnt => (acc, cnt, [])
  | c :: cs, acc, cnt =>
    match digitValue radix c with
    | some d => readDigits radix cs (acc * radix + d) (cnt + 1)
    | none => (acc, cnt, c :: cs)

/-- The production `ExponentPart` (optional): `e` or `E`, an optional sign, digits.
Returns the exponent; the whole rest of the input has to be consumed. -/
def readExponent : List Char → Option Int
  | [] => some 0
  | c :: cs =>
    if c == 'e' || c == 'E' then
      let body : Bool × List Char :=
        match cs with
        | '+' :: r => (false, r)
        | '-' :: r => (true, r)
        | r => (false, r)
      match readDigits 10 body.2 0 0 with
      | (v, cnt, []) => if cnt == 0 then none else some (if body.1 then -(v : Int) else (v : Int))
      | _ => none
    else none

/-- The production `StrUnsignedDecimalLiteral`, with the sign already read. -/
def readUnsignedDecimal (neg : Bool) (cs : List Char) : JSNumber :=
  if cs == "Infinity".data then JSNumber.inf neg
  else
    match readDigits 10 cs 0 0 with
    | (ip, icnt, '.' :: r) =>
      match readDigits 10 r ip 0 with
      | (v, fcnt, r2) =>
        if icnt == 0 && fcnt == 0 then JSNumber.nan
        else
          match readExponent r2 with
          | some ex => JSNumber.ofDecimal neg v (ex - fcnt)
          | none => JSNumber.nan
    | (ip, icnt, r) =>
      if icnt == 0 then JSNumber.nan
      else
        match readExponent r with
        | some ex => JSNumber.ofDecimal neg ip ex
        | none => JSNumber.nan

/-- The production `NonDecimalIntegerLiteral` after its prefix: at least one digit of
the radix and nothing else. -/
def readRadix (radix : Nat) (cs : List Char) : JSNumber :=
  match readDigits radix cs 0 0 with
  | (v, cnt, []) => if cnt == 0 then JSNumber.nan else JSNumber.ofNat v
  | _ => JSNumber.nan

/-- The production `StrNumericLiteral` on input without surrounding white space. -/
def readNumeric : List Char → JSNumber
  | '0' :: 'x' :: r => readRadix 16 r
  | '0' :: 'X' :: r => readRadix 16 r
  | '0' :: 'o' :: r => readRadix 8 r
  | '0' :: 'O' :: r => readRadix 8 r
  | '0' :: 'b' :: r => readRadix 2 r
  | '0' :: 'B' :: r => readRadix 2 r
  | '+' :: r => readUnsignedDecimal false r
  | '-' :: r => readUnsignedDecimal true r
  | r => readUnsignedDecimal false r

/-- The call `Number(s)` on a string (`StringToNumber`): white space is stripped, the
empty string is `+0`, a string that is no numeric literal is `NaN`. -/
def toNumber (s : String) : JSNumber :=
  match trimChars s.data with
  | [] => JSNumber.zero
  | cs => readNumeric cs

/-! ## Shared pieces of the two pages -/

/-- A status element: its `textContent` and its `className`. -/
structure StatusLine where
  textContent : String
  className : String
  deriving DecidableEq, Repr

/-- How the `fetch` of a submission settles, as far as the handlers look at it.
`rejected message`: `fetch` threw (network failure). `response status body`: a
response arrived; `body` is what `await response.json()` and the reads of `data.data`
give, or the message of the exception they throw. -/
inductive FetchOutcome (α : Type) where
  | rejected (message : String)
  | response (status : Nat) (body : Except String α)

/-- The getter `response.ok`: the status is in the range 200 to 299. -/
def responseOk (status : Nat) : Bool := 200 ≤ status && status ≤ 299

/-- The message of the error thrown on a response that is not ok,
the template literal with `response.status` filled in. -/
def apiErrorMessage (status : Nat) : String := "API error " ++ toString status

/-! ## `task1.js`: the chat assistant -/

/-- The value returned by `crypto.randomUUID()`, a string of 36 characters. -/
structure UUID where
  str : String
  length_eq : str.length = 36

/-- An element appended to the chat log by `appendMessage`. -/
structure ChatMessage where
  className : String
  label : String
  bubble : String
  deriving DecidableEq, Repr

/-- The request body built by `handleChatSubmit`. -/
structure ChatRequest where
  question : String
  conversation_id : String
  metadata_channel : String
  deriving DecidableEq, Repr

/-- What the chat handler reads from a decoded response body: `data.data.answer`
(`none` when absent), `data.data.applied_filters` as the text `JSON.stringify` gives
for it (`none` when it is falsy), and `trace_id` and `latency_ms` as the template
literal prints them. -/
structure ChatEnvelope where
  answer : Option String
  applied_filters : Option String
  trace_id : String
  latency_ms : String
  deriving DecidableEq, Repr

/-- The mutable state of the chat page: `conversationState.current` (`null` is `none`)
and the DOM elements the script touches. -/
structure ChatState where
  current : Option String
  chatLog : List ChatMessage
  chatInput : String
  chatStatus : StatusLine
  filterBox : String
  deriving DecidableEq, Repr

/-- The function `appendMessage(role, text)`. -/
def appendMessage (st : ChatState) (role text : String) : ChatState :=
  { st with chatLog := st.chatLog ++
      [{ className := "chat-message " ++ (if role == "user" then "user" else "ai"),
         label := if role == "user" then "You" else "AI",
         bubble := text }] }

/-- The function `renderFilters(filters)`: the pretty-printed JSON of `filters || {}`. -/
def renderFilters (st : ChatState) (filters : Option String) : ChatState :=
  { st with filterBox := filters.getD "\x7b\x7d" }

/-- The expression `conversationState.current || (conversationState.current = crypto.randomUUID())`:
the identifier used, and the state after it. `fresh` is what `crypto.randomUUID()` returns
if it is called. -/
def getOrCreateConversationId (st : ChatState) (fresh : UUID) : String × ChatState :=
  match st.current with
  | some c => if strTruthy c then (c, st) else (fresh.str, { st with current := some fresh.str })
  | none => (fresh.str, { st with current := some fresh.str })

/-- The handler `handleChatSubmit(ev)` up to its `await fetch(...)`: the state it leaves
and the request it dispatches, `none` when it returns before dispatching. -/
def handleChatSubmit (st : ChatState) (fresh : UUID) : ChatState × Option ChatRequest :=
  let question := jsTrim st.chatInput
  if !strTruthy question then (st, none)
  else
    let st1 := appendMessage st "user" question
    let st2 := { st1 with chatInput := "" }
    let idSt := getOrCreateConversationId st2 fresh
    let payload : ChatRequest :=
      { question := question, conversation_id := idSt.1, metadata_channel := "web-demo" }
    let st3 := { idSt.2 with chatStatus := { textContent := "Thinking...", className := "status" } }
    (st3, some payload)

/-- The `catch` block of `handleChatSubmit` for an error with the given message. -/
def chatCatch (st : ChatState) (message : String) : ChatState :=
  let st1 := appendMessage st "ai" ("Error: " ++ message)
  { st1 with chatStatus :=
      { textContent := "Request failed: " ++ message, className := "status error" } }

/-- The rest of `handleChatSubmit`, run when the `fetch` settles. -/
def handleChatSettled (st : ChatState) : FetchOutcome ChatEnvelope → ChatState
  | .rejected message => chatCatch st message
  | .response status body =>
    if !responseOk status then chatCatch st (apiErrorMessage status)
    else
      match body with
      | .error message => chatCatch st message
      | .ok data =>
        let answer :=
          match data.answer with
          | some a => if strTruthy a then a else "No answer returned."
          | none => "No answer returned."
        let st1 := appendMessage st "ai" answer
        let st2 := renderFilters st1 data.applied_filters
        { st2 with chatStatus :=
            { textContent := "Trace ID: " ++ data.trace_id ++ " Â· Latency: " ++ data.latency_ms ++ "ms",
              className := "status success" } }

/-- What can happen on the chat page: the user edits the input, the form is submitted
(with the identifier `crypto.randomUUID()` would return), a pending fetch settles. -/
inductive ChatEvent where
  | input (value : String)
  | submit (fresh : UUID)
  | settled (outcome : FetchOutcome ChatEnvelope)

/-- One event of the chat page: the new state and the request dispatched, if any. -/
def chatStep (st : ChatState) : ChatEvent → ChatState × Option ChatRequest
  | .input value => ({ st with chatInput := value }, none)
  | .submit fresh => handleChatSubmit st fresh
  | .settled outcome => (handleChatSettled st outcome, none)

/-- A sequence of events of the chat page: the final state and the requests dispatched,
in order. -/
def chatRun : ChatState → List ChatEvent → ChatState × List ChatRequest
  | st, [] => (st, [])
  | st, ev :: evs =>
    let r := chatStep st ev
    let rest := chatRun r.1 evs
    (rest.1, r.2.toList ++ rest.2)

/-- The chat page when the script has loaded: `conversationState = { current: null }`,
the DOM as the page delivers it. -/
def chatInitial (page : ChatState) : ChatState := { page with current := none }

/-! ## `task2.js`: the rating predictor -/

/-- Modelled from the spec: `data.js`, which declares the entries of `demoUsers`, is
missing. The fields a persona object offers to `buildUserPayload`, typed as in the
data model (`age`, `total_reviews_written`: int; `avg_rating_given`: float;
`favorite_cuisines`: strings). -/
structure UserProfile where
  age : Int
  home_location : String
  dining_frequency : String
  favorite_cuisines : List String
  preferred_price_range : String
  dietary_restrictions : String
  avg_rating_given : JSNumber
  total_reviews_written : Int
  deriving DecidableEq, Repr

/-- Modelled from the spec: `data.js` is missing. An entry of `demoUsers`: a profile
with a `name`. -/
structure Persona extends UserProfile where
  name : String
  deriving DecidableEq, Repr

/-- Modelled from the spec: `data.js`, which declares the entries of `demoRestaurants`,
is missing. The fields are typed as in the data model (`id`: int; `avg_price`,
`popularity_score`: float; `amenities`: strings); a mapping is the list of its
property names with the JSON text of each value. -/
structure Restaurant where
  id : Int
  name : String
  cuisine : String
  location : String
  price_bucket : String
  description : String
  amenities : List String
  attributes : List (String × String)
  avg_price : JSNumber
  popularity_score : JSNumber
  trend_features : List (String × String)
  deriving DecidableEq, Repr

/-- The object returned by `buildRestaurantPayload`. -/
structure RestaurantPayload where
  location : String
  cuisine : String
  price_bucket : String
  description : String
  amenities : List String
  attributes : List (String × String)
  avg_price : JSNumber
  popularity_score : JSNumber
  trend_features : List (String × String)
  deriving DecidableEq, Repr

/-- The object returned by `buildUserPayload`. -/
structure UserPayload where
  age : Int
  home_location : String
  preferred_price_range : String
  dietary_restrictions : String
  dining_frequency : String
  avg_rating_given : JSNumber
  total_reviews_written : Int
  is_local_resident : Bool
  user_cuisine_match : Nat
  dietary_conflict : Nat
  deriving DecidableEq, Repr

/-- The object returned by `buildReviewContext`. -/
structure ReviewContext where
  helpful_count : JSNumber
  season : String
  day_type : String
  weather_impact_category : String
  review_month : Nat
  review_day_of_week : Nat
  is_holiday : Bool
  booking_lead_time_days : Nat
  deriving DecidableEq, Repr

/-- The request body built by `handleSubmit`. -/
structure RatingRequest where
  restaurant : RestaurantPayload
  user : UserPayload
  review_context : ReviewContext
  review_text : String
  deriving DecidableEq, Repr

/-- What `new Date()` offers to `buildReviewContext`: `getMonth()` (0 to 11) and
`getDay()` (0 to 6, Sunday is 0). -/
structure JSDate where
  getMonth : Nat
  getDay : Nat
  deriving DecidableEq, Repr

/-- What the rating handler reads from a decoded response body, `data.data` and the
two fields of the status line as the template literal prints them. -/
structure RatingEnvelope where
  rating_prediction : JSNumber
  rounded_rating : JSNumber
  confidence_interval : Option (List JSNumber)
  model_version : String
  inference_mode : String
  trace_id : String
  latency_ms : String
  deriving DecidableEq, Repr

/-- The mutable state of the rating page: the two module variables `selectedUser` and
`selectedRestaurant` (`null`/`undefined` is `none`) and the DOM elements the script
touches. `selectedCard` is the persona card carrying the class `selected`,
`ratingResult` the payload rendered in the result panel. -/
structure RatingState where
  selectedUser : Option Persona
  selectedRestaurant : Option Restaurant
  selectedCard : Option Nat
  personaNote : String
  restaurantSelect : String
  reviewText : String
  helpfulCount : String
  seasonSelect : String
  dayTypeSelect : String
  weatherSelect : String
  ratingStatus : StatusLine
  ratingResult : Option RatingEnvelope
  deriving DecidableEq, Repr

/-- The callback `(r) => r.id === id` for a Number `id`. -/
def idMatches (id : JSNumber) (r : Restaurant) : Bool :=
  JSNumber.strictEq (JSNumber.ofInt r.id) id

/-- The `change` listener of the restaurant select installed by `renderRestaurants`:
`demoRestaurants.find((r) => r.id === id) || demoRestaurants[0]` with
`id = Number(ev.target.value)`. The event leaves `value` as the value of the select. -/
def onRestaurantChange (demoRestaurants : List Restaurant) (st : RatingState)
    (value : String) : RatingState :=
  let id := toNumber value
  { st with
    restaurantSelect := value
    selectedRestaurant := (demoRestaurants.find? (idMatches id)).orElse
      (fun _ => demoRestaurants.head?) }

/-- The `click` listener of persona card `i` installed by `renderPersonas`; there is no
card for an index outside `demoUsers`. -/
def onPersonaClick (demoUsers : List Persona) (st : RatingState) (i : Nat) : RatingState :=
  match demoUsers.get? i with
  | some user =>
    { st with
      selectedCard := some i
      selectedUser := some user
      personaNote := "Persona selected: " ++ user.name ++ "." }
  | none => st

/-- The function `buildRestaurantPayload(rest)`. -/
def buildRestaurantPayload (rest : Restaurant) : RestaurantPayload :=
  { location := rest.location
    cuisine := rest.cuisine
    price_bucket := rest.price_bucket
    description := rest.description
    amenities := rest.amenities
    attributes := rest.attributes
    avg_price := rest.avg_price
    popularity_score := rest.popularity_score
    trend_features := rest.trend_features }

/-- The function `buildUserPayload(rest)`, with the module variable `selectedUser` it
reads. The literal `3.6` is the Number nearest to 36/10. -/
def buildUserPayload (selectedUser : Option Persona) (rest : Restaurant) : UserPayload :=
  let base : UserProfile :=
    match selectedUser with
    | some user => user.toUserProfile
    | none =>
      { age := 34
        home_location := rest.location
        dining_frequency := "Monthly"
        favorite_cuisines := [rest.cuisine]
        preferred_price_range := rest.price_bucket
        dietary_restrictions := "none"
        avg_rating_given := JSNumber.ofDecimal false 36 (-1)
        total_reviews_written := 42 }
  let cuisineMatch := if base.favorite_cuisines.contains rest.cuisine then 1 else 0
  { age := base.age
    home_location := base.home_location
    preferred_price_range := base.preferred_price_range
    dietary_restrictions := base.dietary_restrictions
    dining_frequency := base.dining_frequency
    avg_rating_given := base.avg_rating_given
    total_reviews_written := base.total_reviews_written
    is_local_resident := base.home_location == rest.location
    user_cuisine_match := cuisineMatch
    dietary_conflict := 0 }

/-- The expression `Number(helpfulCountEl.value) || 0`. -/
def helpfulCountOf (value : String) : JSNumber :=
  if (toNumber value).truthy then toNumber value else JSNumber.zero

/-- The function `buildReviewContext()`, with the form fields and the date it reads. -/
def buildReviewContext (st : RatingState) (now : JSDate) : ReviewContext :=
  { helpful_count := helpfulCountOf st.helpfulCount
    season := st.seasonSelect
    day_type := st.dayTypeSelect
    weather_impact_category := st.weatherSelect
    review_month := now.getMonth + 1
    review_day_of_week := now.getDay
    is_holiday := false
    booking_lead_time_days := 5 }

/-- How the synchronous part of `handleSubmit` ends: it returns at the guard, it
throws reading a field of an `undefined` restaurant (empty catalog), or it dispatches
a request. -/
inductive SubmitResult where
  | ignored
  | threw
  | dispatched (request : RatingRequest)
  deriving DecidableEq, Repr

/-- The handler `handleSubmit(ev)` up to its `await fetch(...)`. -/
def handleSubmit (demoRestaurants : List Restaurant) (st : RatingState) (now : JSDate) :
    RatingState × SubmitResult :=
  let reviewText := jsTrim st.reviewText
  if !strTruthy reviewText then (st, .ignored)
  else
    let restaurant :=
      (demoRestaurants.find? (idMatches (toNumber st.restaurantSelect))).orElse
        (fun _ => st.selectedRestaurant)
    let st1 := { st with selectedRestaurant := restaurant }
    match restaurant with
    | none => (st1, .threw)
    | some rest =>
      let payload : RatingRequest :=
        { restaurant := buildRestaurantPayload rest
          user := buildUserPayload st1.selectedUser rest
          review_context := buildReviewContext st1 now
          review_text := reviewText }
      ({ st1 with ratingStatus := { textContent := "Scoring...", className := "status" } },
        .dispatched payload)

/-- The `catch` block of `handleSubmit` for an error with the given message. -/
def ratingCatch (st : RatingState) (message : String) : RatingState :=
  { st with ratingStatus :=
      { textContent := "Prediction failed: " ++ message, className := "status error" } }

/-- The rest of `handleSubmit`, run when the `fetch` settles. -/
def handleSubmitSettled (st : RatingState) : FetchOutcome RatingEnvelope → RatingState
  | .rejected message => ratingCatch st message
  | .response status body =>
    if !responseOk status then ratingCatch st (apiErrorMessage status)
    else
      match body with
      | .error message => ratingCatch st message
      | .ok data =>
        { st with
          ratingResult := some data
          ratingStatus :=
            { textContent := "Trace ID: " ++ data.trace_id ++ " · Latency: " ++ data.latency_ms ++ "ms",
              className := "status success" } }

/-- A form field of the rating page that the user can edit without a listener of the
script running. -/
inductive FormField where
  | restaurantSelect
  | reviewText
  | helpfulCount
  | seasonSelect
  | dayTypeSelect
  | weatherSelect
  deriving DecidableEq, Repr

/-- Set the value of a form field. -/
def setField (st : RatingState) (f : FormField) (value : String) : RatingState :=
  match f with
  | .restaurantSelect => { st with restaurantSelect := value }
  | .reviewText => { st with reviewText := value }
  | .helpfulCount => { st with helpfulCount := value }
  | .seasonSelect => { st with seasonSelect := value }
  | .dayTypeSelect => { st with dayTypeSelect := value }
  | .weatherSelect => { st with weatherSelect := value }

/-- What can happen on the rating page. -/
inductive RatingEvent where
  | personaClick (i : Nat)
  | restaurantChange (value : String)
  | edit (field : FormField) (value : String)
  | submit (now : JSDate)
  | settled (outcome : FetchOutcome RatingEnvelope)

/-- One event of the rating page. -/
def ratingStep (demoUsers : List Persona) (demoRestaurants : List Restaurant)
    (st : RatingState) : RatingEvent → RatingState × SubmitResult
  | .personaClick i => (onPersonaClick demoUsers st i, .ignored)
  | .restaurantChange value => (onRestaurantChange demoRestaurants st value, .ignored)
  | .edit field value => (setField st field value, .ignored)
  | .submit now => handleSubmit demoRestaurants st now
  | .settled outcome => (handleSubmitSettled st outcome, .ignored)

/-- A sequence of events of the rating page: the final state. -/
def ratingRun (demoUsers : List Persona) (demoRestaurants : List Restaurant) :
    RatingState → List RatingEvent → RatingState
  | st, [] => st
  | st, ev :: evs =>
    ratingRun demoUsers demoRestaurants (ratingStep demoUsers demoRestaurants st ev).1 evs

/-- The rating page when the script has loaded: `selectedUser = null`,
`selectedRestaurant = demoRestaurants[0]`, no persona card selected, and the first
option of the select, whose value is the first restaurant's id, selected. -/
def ratingInitial (demoRestaurants : List Restaurant) (page : RatingState) : RatingState :=
  { page with
    selectedUser := none
    selectedRestaurant := demoRestaurants.head?
    selectedCard := none
    restaurantSelect :=
      match demoRestaurants.head? with
      | some r => toString r.id
      | none => "" }

/-! ## Concrete data for evaluating the handlers -/

/-- A catalog of two restaurants. -/
def sampleRestaurants : List Restaurant :=
  [ { id := 1, name := "Trattoria Uno", cuisine := "Italian", location := "Downtown",
      price_bucket := "$$", description := "Pasta", amenities := ["wifi"],
      attributes := [], avg_price := JSNumber.ofNat 40,
      popularity_score := JSNumber.ofNat 4, trend_features := [] },
    { id := 2, name := "Thai Garden", cuisine := "Thai", location := "Marina",
      price_bucket := "$", description := "Curry", amenities := [],
      attributes := [], avg_price := JSNumber.ofNat 25,
      popularity_score := JSNumber.ofNat 3, trend_features := [] } ]

/-- A persona. -/
def samplePersona : Persona :=
  { age := 29, home_location := "Marina", dining_frequency := "Weekly",
    favorite_cuisines := ["Thai"], preferred_price_range := "$",
    dietary_restrictions := "vegetarian", avg_rating_given := JSNumber.ofNat 4,
    total_reviews_written := 12, name := "Aisha" }

/-- A version 4 UUID. -/
def sampleUUID : UUID := ⟨"123e4567-e89b-42d3-a456-426614174000", by decide⟩

/-- Another version 4 UUID. -/
def sampleUUID2 : UUID := ⟨"9b2c1d3e-4f5a-4b6c-8d7e-0f1a2b3c4d5e", by decide⟩

/-- The chat page with nothing typed and nothing rendered. -/
def blankChat : ChatState :=
  { current := none, chatLog := [], chatInput := "",
    chatStatus := { textContent := "", className := "status" }, filterBox := "" }

/-- The rating page with empty text fields. -/
def blankRating : RatingState :=
  { selectedUser := none, selectedRestaurant := none, selectedCard := none,
    personaNote := "", restaurantSelect := "", reviewText := "", helpfulCount := "",
    seasonSelect := "summer", dayTypeSelect := "weekday", weatherSelect := "clear",
    ratingStatus := { textContent := "", className := "status" }, ratingResult := none }

/-- A failed response arrives, the user types a second question and submits it. -/
def sampleChatEvents : List ChatEvent :=
  [ ChatEvent.settled (FetchOutcome.response 500 (Except.error "unused")),
    ChatEvent.input "  and ramen?  ",
    ChatEvent.submit sampleUUID2 ]

/-- The user picks the second restaurant, writes a review, the select is set to a value
that is no restaurant id, and the form is submitted. -/
def sampleRatingEvents : List RatingEvent :=
  [ RatingEvent.restaurantChange "2",
    RatingEvent.edit FormField.reviewText "Great",
    RatingEvent.edit FormField.restaurantSelect "77",
    RatingEvent.submit { getMonth := 10, getDay := 3 } ]

/-! ## Auxiliary lemmas -/

theorem strTruthy_iff (s : String) : strTruthy s = true ↔ s ≠ "" := by
  cases s with
  | mk d =>
    cases d with
    | nil => simp [strTruthy]
    | cons c cs =>
      simp [strTruthy]
      intro h
      exact absurd (congrArg String.data h) (by simp)

theorem strTruthy_uuid (u : UUID) : strTruthy u.str = true := by
  have h := u.length_eq
  cases hs : u.str with
  | mk d =>
    rw [hs] at h
    cases d with
    | nil => simp [String.length] at h
    | cons c cs => simp [strTruthy]

theorem handleChatSettled_current (st : ChatState) (o : FetchOutcome ChatEnvelope) :
    (handleChatSettled st o).current = st.current := by
  cases o with
  | rejected m => rfl
  | response status body =>
    cases hok : responseOk status with
    | false => simp [handleChatSettled, hok, chatCatch, appendMessage]
    | true =>
      cases body with
      | error m => simp [handleChatSettled, hok, chatCatch, appendMessage]
      | ok d => simp [handleChatSettled, hok, renderFilters, appendMessage]

theorem chatStep_none (st : ChatState) (ev : ChatEvent) (h : st.current = none)
    (hreq : (chatStep st ev).2 = none) : (chatStep st ev).1.current = none := by
  cases ev with
  | input v => exact h
  | settled o => simpa [chatStep, handleChatSettled_current] using h
  | submit fresh =>
    simp only [chatStep, handleChatSubmit] at hreq ⊢
    split at hreq
    · rename_i hq; simp [hq, h]
    · simp at hreq

theorem chatRun_none (evs : List ChatEvent) : ∀ (st : ChatState), st.current = none →
    (chatRun st evs).2 = [] → (chatRun st evs).1.current = none := by
  induction evs with
  | nil => intro st h _; exact h
  | cons ev evs ih =>
    intro st h hreq
    simp only [chatRun, List.append_eq_nil] at hreq ⊢
    have h2 : (chatStep st ev).2 = none := by
      cases hx : (chatStep st ev).2 with
      | none => rfl
      | some r => rw [hx] at hreq; simp at hreq
    exact ih _ (chatStep_none st ev h h2) hreq.2

theorem chatStep_keep (st : ChatState) (ev : ChatEvent) (c : String)
    (h : st.current = some c) (hc : strTruthy c = true) :
    (chatStep st ev).1.current = some c ∧
      ∀ r, (chatStep st ev).2 = some r → r.conversation_id = c := by
  cases ev with
  | input v => exact ⟨h, by simp [chatStep]⟩
  | settled o => exact ⟨by simpa [chatStep, handleChatSettled_current] using h, by simp [chatStep]⟩
  | submit fresh =>
    simp only [chatStep, handleChatSubmit]
    split
    · exact ⟨h, by simp⟩
    · simp [getOrCreateConversationId, appendMessage, h, hc]

theorem chatRun_keep (evs : List ChatEvent) : ∀ (st : ChatState) (c : String),
    st.current = some c → strTruthy c = true →
    (chatRun st evs).1.current = some c ∧ ∀ r ∈ (chatRun st evs).2, r.conversation_id = c := by
  induction evs with
  | nil => intro st c h _; exact ⟨h, by simp [chatRun]⟩
  | cons ev evs ih =>
    intro st c h hc
    obtain ⟨h1, h2⟩ := chatStep_keep st ev c h hc
    obtain ⟨h3, h4⟩ := ih _ c h1 hc
    refine ⟨h3, ?_⟩
    intro r hr
    simp only [chatRun, List.mem_append] at hr
    rcases hr with hr | hr
    · apply h2
      cases hx : (chatStep st ev).2 with
      | none => rw [hx] at hr; simp at hr
      | some r2 => rw [hx] at hr; simp at hr; rw [hr]
    · exact h4 r hr

theorem chatRun_append (a b : List ChatEvent) : ∀ (st : ChatState),
    chatRun st (a ++ b) =
      ((chatRun (chatRun st a).1 b).1, (chatRun st a).2 ++ (chatRun (chatRun st a).1 b).2) := by
  induction a with
  | nil => intro st; simp [chatRun]
  | cons ev a ih => intro st; simp [chatRun, ih, List.append_assoc]

theorem handleChatSubmit_first (st : ChatState) (fresh : UUID) (h : st.current = none)
    (hq : jsTrim st.chatInput ≠ "") :
    (handleChatSubmit st fresh).1.current = some fresh.str ∧
    (handleChatSubmit st fresh).2 = some
      { question := jsTrim st.chatInput, conversation_id := fresh.str,
        metadata_channel := "web-demo" } := by
  have hq2 := (strTruthy_iff _).2 hq
  simp [handleChatSubmit, hq2, getOrCreateConversationId, appendMessage, h]

theorem handleChatSubmit_sets (st : ChatState) (fresh : UUID) (req : ChatRequest)
    (h : (handleChatSubmit st fresh).2 = some req) :
    (handleChatSubmit st fresh).1.current = some req.conversation_id := by
  simp only [handleChatSubmit] at h ⊢
  split at h
  · simp at h
  · rename_i hq
    simp only [hq] at h ⊢
    simp only [Option.some.injEq] at h
    subst h
    simp only [getOrCreateConversationId, appendMessage]
    cases hc : st.current with
    | none => simp
    | some c =>
      cases ht : strTruthy c <;> simp [ht]

theorem find?_first {α : Type} (p : α → Bool) : ∀ (l : List α) (i : Nat) (r : α),
    l[i]? = some r → p r = true → (∀ x ∈ l.take i, p x = false) →
    l.find? p = some r := by
  intro l
  induction l with
  | nil => intro i r hget; simp at hget
  | cons a l ih =>
    intro i r hget hp hfirst
    cases i with
    | zero =>
      simp only [List.getElem?_cons_zero, Option.some.injEq] at hget
      subst hget
      simp [List.find?, hp]
    | succ k =>
      have h0 : p a = false := hfirst a (by simp [List.take])
      have hrec := ih k r (by simpa using hget) hp
        (fun x hx => hfirst x (by simp [List.take, hx]))
      simp only [List.find?, h0]
      exact hrec

theorem handleSubmitSettled_selected (st : RatingState) (o : FetchOutcome RatingEnvelope) :
    (handleSubmitSettled st o).selectedRestaurant = st.selectedRestaurant := by
  cases o with
  | rejected m => rfl
  | response status body =>
    cases hok : responseOk status with
    | false => simp [handleSubmitSettled, hok, ratingCatch]
    | true =>
      cases body with
      | error m => simp [handleSubmitSettled, hok, ratingCatch]
      | ok d => simp [handleSubmitSettled, hok]

theorem find?_orElse_mem (demoRestaurants : List Restaurant) (p : Restaurant → Bool)
    (fallback : Option Restaurant) (hfb : ∃ r ∈ demoRestaurants, fallback = some r) :
    ∃ r ∈ demoRestaurants, (demoRestaurants.find? p).orElse (fun _ => fallback) = some r := by
  cases hf : demoRestaurants.find? p with
  | some r => exact ⟨r, List.mem_of_find?_eq_some hf, by simp [Option.orElse]⟩
  | none =>
    obtain ⟨r, hr, hfb⟩ := hfb
    exact ⟨r, hr, by simp [Option.orElse, hfb]⟩

theorem ratingStep_selected (demoUsers : List Persona) (demoRestaurants : List Restaurant)
    (hne : demoRestaurants ≠ []) (st : RatingState) (ev : RatingEvent)
    (h : ∃ r ∈ demoRestaurants, st.selectedRestaurant = some r) :
    ∃ r ∈ demoRestaurants,
      (ratingStep demoUsers demoRestaurants st ev).1.selectedRestaurant = some r := by
  cases ev with
  | personaClick i =>
    simp only [ratingStep, onPersonaClick]
    cases demoUsers.get? i <;> exact h
  | restaurantChange value =>
    simp only [ratingStep, onRestaurantChange]
    exact find?_orElse_mem demoRestaurants _ _
      ⟨demoRestaurants.head hne, List.head_mem hne, List.head?_eq_head hne⟩
  | edit field value =>
    simp only [ratingStep]
    cases field <;> exact h
  | submit now =>
    simp only [ratingStep, handleSubmit]
    split
    · exact h
    · obtain ⟨r, hr, he⟩ :=
        find?_orElse_mem demoRestaurants (idMatches (toNumber st.restaurantSelect))
          st.selectedRestaurant h
      simp only [he]
      exact ⟨r, hr, rfl⟩
  | settled outcome =>
    simp only [ratingStep, handleSubmitSettled_selected]
    exact h

theorem ratingRun_selected (demoUsers : List Persona) (demoRestaurants : List Restaurant)
    (hne : demoRestaurants ≠ []) (evs : List RatingEvent) : ∀ (st : RatingState),
    (∃ r ∈ demoRestaurants, st.selectedRestaurant = some r) →
    ∃ r ∈ demoRestaurants,
      (ratingRun demoUsers demoRestaurants st evs).selectedRestaurant = some r := by
  induction evs with
  | nil => intro st h; exact h
  | cons ev evs ih =>
    intro st h
    exact ih _ (ratingStep_selected demoUsers demoRestaurants hne st ev h)

/-! ## The claims -/

/-- Claim C1: in a session that starts with `conversationState.current = null`, let `pre`
be any events that dispatch no request and leave a question that is not empty after
trimming, and let the form then be submitted. That first submission stores the
identifier `crypto.randomUUID()` returned and sends it; whatever events `post` follow
(further submissions, typing, responses), the stored identifier is still that one, the
first request of the session is that first payload, and every request of the session
carries that same `conversation_id`. -/
theorem conversationId_generated_once (page : ChatState) (pre post : List ChatEvent)
    (fresh : UUID)
    (hpre : (chatRun (chatInitial page) pre).2 = [])
    (hq : jsTrim (chatRun (chatInitial page) pre).1.chatInput ≠ "") :
    (chatRun (chatInitial page) (pre ++ [ChatEvent.submit fresh])).1.current = some fresh.str ∧
    (chatRun (chatInitial page) (pre ++ [ChatEvent.submit fresh])).2 =
      [{ question := jsTrim (chatRun (chatInitial page) pre).1.chatInput,
         conversation_id := fresh.str, metadata_channel := "web-demo" }] ∧
    (chatRun (chatInitial page) (pre ++ ChatEvent.submit fresh :: post)).1.current
      = some fresh.str ∧
    (chatRun (chatInitial page) (pre ++ ChatEvent.submit fresh :: post)).2.head? =
      some { question := jsTrim (chatRun (chatInitial page) pre).1.chatInput,
             conversation_id := fresh.str, metadata_channel := "web-demo" } ∧
    ∀ r ∈ (chatRun (chatInitial page) (pre ++ ChatEvent.submit fresh :: post)).2,
      r.conversation_id = fresh.str := by
  have hnone := chatRun_none pre (chatInitial page) rfl hpre
  obtain ⟨hs1, hs2⟩ := handleChatSubmit_first _ fresh hnone hq
  obtain ⟨hk1, hk2⟩ := chatRun_keep post _ fresh.str hs1 (strTruthy_uuid fresh)
  refine ⟨?_, ?_, ?_, ?_, ?_⟩
  · simp [chatRun_append, chatRun, chatStep, hs1]
  · simp [chatRun_append, chatRun, chatStep, hs2, hpre]
  · simpa [chatRun_append, chatRun, chatStep] using hk1
  · simp [chatRun_append, chatRun, chatStep, hs2, hpre]
  · intro r hr
    simp only [chatRun_append, chatRun, chatStep, hpre, List.nil_append, hs2,
      List.mem_append] at hr
    rcases hr with hr | hr
    · simp at hr; rw [hr]
    · exact hk2 r hr

theorem conversationId_generated_once_witness :
    (chatRun (chatInitial blankChat) [ChatEvent.input "best sushi near me"]).2 = [] ∧
    jsTrim (chatRun (chatInitial blankChat)
      [ChatEvent.input "best sushi near me"]).1.chatInput ≠ "" ∧
    (chatRun (chatInitial blankChat) ([ChatEvent.input "best sushi near me"] ++
      ChatEvent.submit sampleUUID :: sampleChatEvents)).1.current = some sampleUUID.str ∧
    ∀ r ∈ (chatRun (chatInitial blankChat) ([ChatEvent.input "best sushi near me"] ++
      ChatEvent.submit sampleUUID :: sampleChatEvents)).2,
      r.conversation_id = sampleUUID.str :=
  ⟨by decide, by decide,
    (conversationId_generated_once blankChat [ChatEvent.input "best sushi near me"]
      sampleChatEvents sampleUUID (by decide) (by decide)).2.2.1,
    (conversationId_generated_once blankChat [ChatEvent.input "best sushi near me"]
      sampleChatEvents sampleUUID (by decide) (by decide)).2.2.2.2⟩

/-- Claim C2: when the chat input trims to the empty string, `handleChatSubmit` dispatches
no request and leaves the whole chat state, the conversation identifier included, as
it was; when the review text trims to the empty string, `handleSubmit` dispatches no
request and leaves the whole rating state, the selected restaurant included, as it
was. -/
theorem empty_text_never_dispatched (st : ChatState) (fresh : UUID)
    (demoRestaurants : List Restaurant) (rst : RatingState) (now : JSDate)
    (hq : jsTrim st.chatInput = "") (hr : jsTrim rst.reviewText = "") :
    handleChatSubmit st fresh = (st, none) ∧
    handleSubmit demoRestaurants rst now = (rst, SubmitResult.ignored) := by
  constructor
  · simp [handleChatSubmit, hq, strTruthy]
  · simp [handleSubmit, hr, strTruthy]

theorem empty_text_never_dispatched_witness :
    jsTrim ({ blankChat with chatInput := " \t " }).chatInput = "" ∧
    jsTrim ({ blankRating with reviewText := "\n  " }).reviewText = "" ∧
    handleChatSubmit { blankChat with chatInput := " \t " } sampleUUID =
      ({ blankChat with chatInput := " \t " }, none) ∧
    handleSubmit sampleRestaurants { blankRating with reviewText := "\n  " }
      { getMonth := 10, getDay := 3 } =
      ({ blankRating with reviewText := "\n  " }, SubmitResult.ignored) :=
  ⟨by decide, by decide,
    empty_text_never_dispatched { blankChat with chatInput := " \t " } sampleUUID
      sampleRestaurants { blankRating with reviewText := "\n  " }
      { getMonth := 10, getDay := 3 } (by decide) (by decide)⟩

/-- Claim C3 as stated fails: with `"-5"` in the helpfulCount field `buildReviewContext`
returns `helpful_count = -5`, which is no non-negative integer, and with `"2.5"` it
returns a number that is no integer. -/
theorem helpful_count_negative_counterexample :
    (buildReviewContext { blankRating with helpfulCount := "-5" }
        { getMonth := 10, getDay := 3 }).helpful_count = JSNumber.fin true 5 0 ∧
    (buildReviewContext { blankRating with helpfulCount := "-5" }
        { getMonth := 10, getDay := 3 }).helpful_count.isNonNegInteger = false ∧
    (buildReviewContext { blankRating with helpfulCount := "2.5" }
        { getMonth := 10, getDay := 3 }).helpful_count.isNonNegInteger = false := by
  decide

/-- Claim C3, amended: for every value of the helpfulCount field, `helpful_count` is
`Number(value)` when that is a number other than `NaN` and zero, and `0` otherwise; it is
never `NaN`, and it is a non-negative integer exactly when `Number(value)` is `NaN` or a
non-negative integer. -/
theorem helpful_count_number_or_zero (st : RatingState) (now : JSDate) :
    (buildReviewContext st now).helpful_count ≠ JSNumber.nan ∧
    (buildReviewContext st now).helpful_count =
      (if (toNumber st.helpfulCount).truthy then toNumber st.helpfulCount else JSNumber.zero) ∧
    ((buildReviewContext st now).helpful_count.isNonNegInteger = true ↔
      (toNumber st.helpfulCount = JSNumber.nan ∨
        (toNumber st.helpfulCount).isNonNegInteger = true)) := by
  simp only [buildReviewContext, helpfulCountOf]
  cases hn : toNumber st.helpfulCount with
  | nan => simp [JSNumber.truthy, JSNumber.zero, JSNumber.isNonNegInteger]
  | inf neg => simp [JSNumber.truthy, JSNumber.zero, JSNumber.isNonNegInteger]
  | fin neg m e =>
    by_cases hm : m = 0
    · subst hm; simp [JSNumber.truthy, JSNumber.zero, JSNumber.isNonNegInteger]
    · simp [JSNumber.truthy, JSNumber.zero, JSNumber.isNonNegInteger, hm]

/-- Claim C4: when the helpfulCount field holds a string that is no numeric literal
(`Number` gives `NaN`), or the empty string, `buildReviewContext` returns
`helpful_count = 0`; the function is total, so it does not fail. -/
theorem helpful_count_defaults_to_zero (st : RatingState) (now : JSDate)
    (h : toNumber st.helpfulCount = JSNumber.nan ∨ st.helpfulCount = "") :
    (buildReviewContext st now).helpful_count = JSNumber.zero := by
  rcases h with h | h
  · simp [buildReviewContext, helpfulCountOf, h, JSNumber.truthy]
  · simp [buildReviewContext, helpfulCountOf, h]
    decide

theorem helpful_count_defaults_to_zero_witness :
    toNumber ({ blankRating with helpfulCount := "abc" }).helpfulCount = JSNumber.nan ∧
    (buildReviewContext { blankRating with helpfulCount := "abc" }
      { getMonth := 10, getDay := 3 }).helpful_count = JSNumber.zero ∧
    (buildReviewContext { blankRating with helpfulCount := "" }
      { getMonth := 10, getDay := 3 }).helpful_count = JSNumber.zero :=
  ⟨by decide,
    helpful_count_defaults_to_zero { blankRating with helpfulCount := "abc" }
      { getMonth := 10, getDay := 3 } (Or.inl (by decide)),
    helpful_count_defaults_to_zero { blankRating with helpfulCount := "" }
      { getMonth := 10, getDay := 3 } (Or.inr rfl)⟩

/-- Claim C5: with no persona selected, `buildUserPayload` returns for every restaurant
`home_location` equal to the restaurant's location, `preferred_price_range` equal to
its price bucket, age 34, dining frequency "Monthly", dietary restrictions "none",
`avg_rating_given` 3.6 (the Number `Number("3.6")`), 42 reviews written, `is_local_resident = true` and
`user_cuisine_match = 1`. -/
theorem buildUserPayload_default_persona (rest : Restaurant) :
    (buildUserPayload none rest).home_location = rest.location ∧
    (buildUserPayload none rest).preferred_price_range = rest.price_bucket ∧
    (buildUserPayload none rest).age = 34 ∧
    (buildUserPayload none rest).dining_frequency = "Monthly" ∧
    (buildUserPayload none rest).dietary_restrictions = "none" ∧
    (buildUserPayload none rest).avg_rating_given = toNumber "3.6" ∧
    (buildUserPayload none rest).total_reviews_written = 42 ∧
    (buildUserPayload none rest).is_local_resident = true ∧
    (buildUserPayload none rest).user_cuisine_match = 1 := by
  have h36 : JSNumber.ofDecimal false 36 (-1) = toNumber "3.6" := by decide
  refine ⟨rfl, rfl, rfl, rfl, rfl, ?_, rfl, ?_, ?_⟩
  · simp [buildUserPayload, h36]
  · simp [buildUserPayload]
  · simp [buildUserPayload]

/-- Claim C6: with a persona selected, `buildUserPayload` returns `user_cuisine_match = 1`
if the persona's favorite cuisines contain the restaurant's cuisine and 0 otherwise,
`is_local_resident = true` exactly when the persona's home location equals the
restaurant's location, and `dietary_conflict = 0`. -/
theorem buildUserPayload_selected_persona (user : Persona) (rest : Restaurant) :
    (buildUserPayload (some user) rest).user_cuisine_match =
        (if rest.cuisine ∈ user.favorite_cuisines then 1 else 0) ∧
    ((buildUserPayload (some user) rest).is_local_resident = true ↔
        user.home_location = rest.location) ∧
    (buildUserPayload (some user) rest).dietary_conflict = 0 := by
  refine ⟨?_, ?_, rfl⟩
  · simp [buildUserPayload]
  · simp [buildUserPayload]

/-- Claim C7: for a non-empty catalog and every value of the select, with
`id = Number(value)`, the change listener sets the selected restaurant to the first
catalog entry whose id equals `id`, and to the first entry of the catalog when no
entry has that id. -/
theorem restaurantChange_selects_first_match (demoRestaurants : List Restaurant)
    (hne : demoRestaurants ≠ []) (st : RatingState) (value : String) :
    (∀ (i : Nat) (r : Restaurant), demoRestaurants[i]? = some r →
      idMatches (toNumber value) r = true →
      (∀ x ∈ demoRestaurants.take i, idMatches (toNumber value) x = false) →
      (onRestaurantChange demoRestaurants st value).selectedRestaurant = some r) ∧
    ((∀ r ∈ demoRestaurants, idMatches (toNumber value) r = false) →
      (onRestaurantChange demoRestaurants st value).selectedRestaurant =
        some (demoRestaurants.head hne)) := by
  constructor
  · intro i r hget hp hfirst
    simp [onRestaurantChange, find?_first _ demoRestaurants i r hget hp hfirst, Option.orElse]
  · intro hnone
    have : demoRestaurants.find? (idMatches (toNumber value)) = none := by
      rw [List.find?_eq_none]
      intro r hr
      simp [hnone r hr]
    simp [onRestaurantChange, this, Option.orElse, List.head?_eq_head hne]

set_option maxRecDepth 8192 in
theorem restaurantChange_selects_first_match_witness :
    sampleRestaurants ≠ [] ∧
    (onRestaurantChange sampleRestaurants blankRating "2").selectedRestaurant =
      sampleRestaurants[1]? ∧
    (onRestaurantChange sampleRestaurants blankRating "9999").selectedRestaurant =
      some (sampleRestaurants.head (by decide)) :=
  ⟨by decide,
    (restaurantChange_selects_first_match sampleRestaurants (by decide) blankRating "2").1
      1 _ rfl (by decide) (by decide),
    (restaurantChange_selects_first_match sampleRestaurants (by decide) blankRating
      "9999").2 (by decide)⟩

/-- Claim C8: for every response whose status is outside 200 to 299 and whatever its
body, the chat continuation appends the error message to the log, shows
"Request failed: API error" followed by the status with the class "status error", and
changes nothing else; the rating continuation shows "Prediction failed: API error"
followed by the status with the class "status error" and changes nothing else, so no
result is rendered. After a submission that dispatched a request, the stored
conversation identifier is still the one sent in that request, and the selected
restaurant is still the one of the submission. -/
theorem non_ok_response_is_failure (status : Nat) (hfail : responseOk status = false)
    (cst : ChatState) (cbody : Except String ChatEnvelope)
    (demoRestaurants : List Restaurant) (rst : RatingState)
    (rbody : Except String RatingEnvelope) :
    handleChatSettled cst (FetchOutcome.response status cbody) =
      { cst with
        chatLog := cst.chatLog ++
          [{ className := "chat-message ai", label := "AI",
             bubble := "Error: API error " ++ toString status }]
        chatStatus := { textContent := "Request failed: API error " ++ toString status,
                        className := "status error" } } ∧
    handleSubmitSettled rst (FetchOutcome.response status rbody) =
      { rst with
        ratingStatus := { textContent := "Prediction failed: API error " ++ toString status,
                          className := "status error" } } ∧
    (∀ (fresh : UUID) (req : ChatRequest), (handleChatSubmit cst fresh).2 = some req →
      (handleChatSettled (handleChatSubmit cst fresh).1
        (FetchOutcome.response status cbody)).current = some req.conversation_id) ∧
    (∀ (now : JSDate),
      (handleSubmitSettled (handleSubmit demoRestaurants rst now).1
        (FetchOutcome.response status rbody)).selectedRestaurant =
      (handleSubmit demoRestaurants rst now).1.selectedRestaurant) := by
  have e1 : "Error: " ++ apiErrorMessage status = "Error: API error " ++ toString status := by
    simp only [apiErrorMessage, ← String.append_assoc]; rfl
  have e2 : "Request failed: " ++ apiErrorMessage status =
      "Request failed: API error " ++ toString status := by
    simp only [apiErrorMessage, ← String.append_assoc]; rfl
  have e3 : "Prediction failed: " ++ apiErrorMessage status =
      "Prediction failed: API error " ++ toString status := by
    simp only [apiErrorMessage, ← String.append_assoc]; rfl
  refine ⟨?_, ?_, ?_, ?_⟩
  · simp [handleChatSettled, hfail, chatCatch, appendMessage, e1, e2]
  · simp [handleSubmitSettled, hfail, ratingCatch, e3]
  · intro fresh req hreq
    rw [handleChatSettled_current]
    exact handleChatSubmit_sets cst fresh req hreq
  · intro now
    simp [handleSubmitSettled, hfail, ratingCatch]

theorem non_ok_response_is_failure_witness :
    responseOk 503 = false ∧
    (handleChatSettled blankChat
      (FetchOutcome.response 503 (Except.ok
        { answer := some "ignored", applied_filters := none, trace_id := "t",
          latency_ms := "1" }))).chatStatus =
      { textContent := "Request failed: API error 503", className := "status error" } ∧
    (handleSubmitSettled blankRating
      (FetchOutcome.response 503 (Except.error "ignored"))).ratingStatus =
      { textContent := "Prediction failed: API error 503", className := "status error" } :=
  ⟨by decide,
    congrArg ChatState.chatStatus
      (non_ok_response_is_failure 503 (by decide) blankChat (Except.ok
        { answer := some "ignored", applied_filters := none, trace_id := "t",
          latency_ms := "1" }) sampleRestaurants blankRating (Except.error "ignored")).1,
    congrArg RatingState.ratingStatus
      (non_ok_response_is_failure 503 (by decide) blankChat (Except.ok
        { answer := some "ignored", applied_filters := none, trace_id := "t",
          latency_ms := "1" }) sampleRestaurants blankRating (Except.error "ignored")).2.1⟩

/-- Claim C9: `buildRestaurantPayload` returns a record of exactly the nine fields
location, cuisine, price_bucket, description, amenities, attributes, avg_price,
popularity_score and trend_features, each equal to the restaurant's field of that name;
the restaurant's id and name do not enter the result. -/
theorem buildRestaurantPayload_projection (rest : Restaurant) :
    (buildRestaurantPayload rest).location = rest.location ∧
    (buildRestaurantPayload rest).cuisine = rest.cuisine ∧
    (buildRestaurantPayload rest).price_bucket = rest.price_bucket ∧
    (buildRestaurantPayload rest).description = rest.description ∧
    (buildRestaurantPayload rest).amenities = rest.amenities ∧
    (buildRestaurantPayload rest).attributes = rest.attributes ∧
    (buildRestaurantPayload rest).avg_price = rest.avg_price ∧
    (buildRestaurantPayload rest).popularity_score = rest.popularity_score ∧
    (buildRestaurantPayload rest).trend_features = rest.trend_features ∧
    (∀ p : RestaurantPayload, p =
      { location := p.location, cuisine := p.cuisine, price_bucket := p.price_bucket,
        description := p.description, amenities := p.amenities, attributes := p.attributes,
        avg_price := p.avg_price, popularity_score := p.popularity_score,
        trend_features := p.trend_features }) ∧
    ∀ (id : Int) (name : String),
      buildRestaurantPayload { rest with id := id, name := name } =
        buildRestaurantPayload rest := by
  refine ⟨rfl, rfl, rfl, rfl, rfl, rfl, rfl, rfl, rfl, ?_, ?_⟩
  · intro p
    rfl
  · intro id name
    rfl

/-- Claim C10: for a non-empty catalog the selected restaurant starts as the first entry
of the catalog; after any sequence of events of the rating page (persona clicks,
selection changes, edits of the form fields including the select's value, submissions,
responses) it is an entry of the catalog; and a submission with non-empty review text
builds its request from the first catalog entry whose id equals `Number` of the select's
value, or from the previously selected restaurant when no entry matches, and makes that
restaurant the selected one. -/
theorem selectedRestaurant_in_catalog (demoUsers : List Persona)
    (demoRestaurants : List Restaurant) (hne : demoRestaurants ≠ []) (page : RatingState) :
    (ratingInitial demoRestaurants page).selectedRestaurant =
      some (demoRestaurants.head hne) ∧
    (∀ evs : List RatingEvent, ∃ r ∈ demoRestaurants,
      (ratingRun demoUsers demoRestaurants (ratingInitial demoRestaurants page)
        evs).selectedRestaurant = some r) ∧
    (∀ (st : RatingState) (prev : Restaurant) (now : JSDate),
      st.selectedRestaurant = some prev → jsTrim st.reviewText ≠ "" →
      ∃ used : Restaurant,
        (handleSubmit demoRestaurants st now).2 = SubmitResult.dispatched
          { restaurant := buildRestaurantPayload used
            user := buildUserPayload st.selectedUser used
            review_context := buildReviewContext st now
            review_text := jsTrim st.reviewText } ∧
        (handleSubmit demoRestaurants st now).1.selectedRestaurant = some used ∧
        (∀ (i : Nat) (r : Restaurant), demoRestaurants[i]? = some r →
          idMatches (toNumber st.restaurantSelect) r = true →
          (∀ x ∈ demoRestaurants.take i,
            idMatches (toNumber st.restaurantSelect) x = false) →
          used = r) ∧
        ((∀ r ∈ demoRestaurants, idMatches (toNumber st.restaurantSelect) r = false) →
          used = prev)) := by
  have hinit : (ratingInitial demoRestaurants page).selectedRestaurant =
      some (demoRestaurants.head hne) := by
    simp [ratingInitial, List.head?_eq_head hne]
  refine ⟨hinit, ?_, ?_⟩
  · intro evs
    exact ratingRun_selected demoUsers demoRestaurants hne evs _
      ⟨demoRestaurants.head hne, List.head_mem hne, hinit⟩
  · intro st prev now hprev hq
    have hq2 := (strTruthy_iff _).2 hq
    cases hf : demoRestaurants.find? (idMatches (toNumber st.restaurantSelect)) with
    | some r =>
      refine ⟨r, ?_, ?_, ?_, ?_⟩
      · simp [handleSubmit, hq2, hf, Option.orElse, buildReviewContext]
      · simp [handleSubmit, hq2, hf, Option.orElse]
      · intro i r2 hget hp hfirst
        have := find?_first _ demoRestaurants i r2 hget hp hfirst
        rw [hf] at this
        exact Option.some.inj this
      · intro hnone
        have hmem := List.mem_of_find?_eq_some hf
        have hp := List.find?_some hf
        rw [hnone r hmem] at hp
        exact absurd hp (by simp)
    | none =>
      refine ⟨prev, ?_, ?_, ?_, ?_⟩
      · simp [handleSubmit, hq2, hf, Option.orElse, hprev, buildReviewContext]
      · simp [handleSubmit, hq2, hf, Option.orElse, hprev]
      · intro i r2 hget hp hfirst
        have := find?_first _ demoRestaurants i r2 hget hp hfirst
        rw [hf] at this
        exact absurd this (by simp)
      · intro _
        rfl

set_option maxRecDepth 8192 in
theorem selectedRestaurant_in_catalog_witness :
    sampleRestaurants ≠ [] ∧
    (ratingInitial sampleRestaurants blankRating).selectedRestaurant =
      some (sampleRestaurants.head (by decide)) ∧
    (∃ r ∈ sampleRestaurants,
      (ratingRun [samplePersona] sampleRestaurants
        (ratingInitial sampleRestaurants blankRating)
        sampleRatingEvents).selectedRestaurant = some r) ∧
    (ratingRun [samplePersona] sampleRestaurants
        (ratingInitial sampleRestaurants blankRating)
        sampleRatingEvents).selectedRestaurant = sampleRestaurants[1]? :=
  ⟨by decide,
    (selectedRestaurant_in_catalog [samplePersona] sampleRestaurants (by decide)
      blankRating).1,
    (selectedRestaurant_in_catalog [samplePersona] sampleRestaurants (by decide)
      blankRating).2.1 sampleRatingEvents,
    by decide⟩

end Engage
